import Mathlib

/-!
Verification of the feed-merging core of `src/debug_parse.py`
(the `parseThingSpeakMerge` simulation: value parsing, timestamp
bucketing, temperature/humidity ingestion, finalization and sort).

Modelling conventions:
* Python `float` values are modelled as exact rationals (`ℚ`); the
  merge logic never does arithmetic on parsed values, it only stores
  them and compares them with zero, so exact decimals are a faithful
  model of the finite decimal literals the feeds contain (the
  `inf`/`nan` spellings and underscore digit separators accepted by
  Python's `float` are outside the model).
* `datetime` instants are modelled as epoch seconds (`ℤ`).  The
  modelled subset of `datetime.fromisoformat` is
  `YYYY-MM-DD[<sep>HH[:MM[:SS]][±HH:MM]]` with calendar validation;
  a string without a UTC offset is interpreted as UTC, which models a
  UTC-configured runtime.  Fractional seconds are outside the model.
* A Python dict is modelled as an insertion-ordered association list;
  the three per-sensor dict keys `t{s}`, `rh{s}`, `ok{s}` of a merged
  record are grouped into one `Cell` whose fields are `Option`-valued:
  the outer `Option` is dict-key presence, the inner one is the stored
  value (which may itself be Python `None`).
-/

namespace DebugParse

/-- Numeric value of a decimal digit character. -/
def digitVal (c : Char) : Nat := c.toNat - 48

/-- Longest digit prefix of a character list, as digit values, with the rest. -/
def readDigits : List Char → List Nat × List Char
  | [] => ([], [])
  | c :: cs =>
    if c.isDigit then
      let (ds, r) := readDigits cs
      (digitVal c :: ds, r)
    else ([], c :: cs)

/-- Value of a digit-value list read in base 10. -/
def natOfDigits (ds : List Nat) : Nat := ds.foldl (fun a d => 10 * a + d) 0

/-- Model of Python `float(v)` on finite decimal literals:
optional sign, integer and/or fractional digits, optional exponent.
Returns `none` exactly when Python's `float` would raise `ValueError`
(on the modelled subset of inputs). -/
def pyFloat? (s : String) : Option ℚ :=
  let p1 : Int × List Char :=
    match s.data with
    | '+' :: r => (1, r)
    | '-' :: r => (-1, r)
    | r => (1, r)
  let sgn := p1.1
  let (ids, cs) := readDigits p1.2
  let p2 : List Nat × List Char :=
    match cs with
    | '.' :: r => readDigits r
    | r => ([], r)
  let fds := p2.1
  let cs := p2.2
  if ids.isEmpty && fds.isEmpty then none
  else
    let num : Int := sgn * ((natOfDigits ids) * 10 ^ fds.length + natOfDigits fds)
    let den : Nat := 10 ^ fds.length
    match cs with
    | [] => some (mkRat num den)
    | c :: r =>
      if c = 'e' ∨ c = 'E' then
        let p3 : Bool × List Char :=
          match r with
          | '+' :: r3 => (true, r3)
          | '-' :: r3 => (false, r3)
          | r3 => (true, r3)
        let (eds, r4) := readDigits p3.2
        if eds.isEmpty || !r4.isEmpty then none
        else
          let ex := natOfDigits eds
          some (if p3.1 then mkRat (num * 10 ^ ex) den else mkRat num (den * 10 ^ ex))
      else none

/-- Embeds `num_parse` of `src/debug_parse.py` (lines 23-30): `None`,
`''`, `'null'`, `'None'` give no value; otherwise the string is parsed
as a float, with parse failure giving no value instead of an error. -/
def num_parse (v : Option String) : Option ℚ :=
  match v with
  | none => none
  | some s => if s = "" ∨ s = "null" ∨ s = "None" then none else pyFloat? s

/-- Gregorian leap-year rule, as in Python's `datetime`. -/
def isLeap (y : Nat) : Bool := y % 4 = 0 && (y % 100 ≠ 0 || y % 400 = 0)

/-- Length of a month, as validated by `datetime.fromisoformat`. -/
def daysInMonth (y m : Nat) : Nat :=
  if m = 2 then (if isLeap y then 29 else 28)
  else if m = 4 ∨ m = 6 ∨ m = 9 ∨ m = 11 then 30 else 31

/-- Days from 1970-01-01 to the given civil date (proleptic Gregorian). -/
def daysFromCivil (y m d : Nat) : Int :=
  let y' : Nat := if m ≤ 2 then y - 1 else y
  let era : Nat := y' / 400
  let yoe : Nat := y' - era * 400
  let mp : Nat := if 2 < m then m - 3 else m + 9
  let doy : Nat := (153 * mp + 2) / 5 + (d - 1)
  let doe : Nat := yoe * 365 + yoe / 4 - yoe / 100 + doy
  (era : Int) * 146097 + (doe : Int) - 719468

/-- Reads exactly two decimal digits. -/
def read2 : List Char → Option (Nat × List Char)
  | c1 :: c2 :: rest =>
    if c1.isDigit && c2.isDigit then some (digitVal c1 * 10 + digitVal c2, rest) else none
  | _ => none

/-- Reads exactly four decimal digits. -/
def read4 : List Char → Option (Nat × List Char)
  | c1 :: c2 :: c3 :: c4 :: rest =>
    if c1.isDigit && c2.isDigit && c3.isDigit && c4.isDigit then
      some (digitVal c1 * 1000 + digitVal c2 * 100 + digitVal c3 * 10 + digitVal c4, rest)
    else none
  | _ => none

/-- Consumes an expected character. -/
def expectChar (c : Char) : List Char → Option (List Char)
  | c' :: rest => if c' = c then some rest else none
  | _ => none

/-- Parses an optional `±HH:MM` UTC offset, in seconds; `none` in the
first component means no offset was present (a naive datetime). -/
def readOffset : List Char → Option (Option Int × List Char)
  | [] => some (none, [])
  | '+' :: cs => do
    let (oh, cs) ← read2 cs
    let cs ← expectChar ':' cs
    let (om, cs) ← read2 cs
    if oh ≤ 23 ∧ om ≤ 59 then some (some ((oh * 3600 + om * 60 : Nat) : Int), cs) else none
  | '-' :: cs => do
    let (oh, cs) ← read2 cs
    let cs ← expectChar ':' cs
    let (om, cs) ← read2 cs
    if oh ≤ 23 ∧ om ≤ 59 then some (some (-((oh * 3600 + om * 60 : Nat) : Int)), cs) else none
  | _ => none

/-- Model of `datetime.fromisoformat(...).timestamp()`: parses
`YYYY-MM-DD[<sep>HH[:MM[:SS]][±HH:MM]]` to epoch seconds, validating
calendar and clock ranges; `none` models the `ValueError` the source
catches.  A missing offset is read as UTC. -/
def parseIso (s : String) : Option Int := do
  let (y, cs) ← read4 s.data
  let cs ← expectChar '-' cs
  let (mo, cs) ← read2 cs
  let cs ← expectChar '-' cs
  let (d, cs) ← read2 cs
  if ¬ (1 ≤ y ∧ y ≤ 9999 ∧ 1 ≤ mo ∧ mo ≤ 12 ∧ 1 ≤ d ∧ d ≤ daysInMonth y mo) then none
  else
    match cs with
    | [] => some (daysFromCivil y mo d * 86400)
    | _sep :: cs => do
      let (h, cs) ← read2 cs
      let (mi, cs) ← (match cs with
        | ':' :: cs2 => do
          let (mi, cs3) ← read2 cs2
          some (mi, cs3)
        | _ => some (0, cs))
      let (sec, cs) ← (match cs with
        | ':' :: cs2 => do
          let (sec, cs3) ← read2 cs2
          some (sec, cs3)
        | _ => some (0, cs))
      let (off, cs) ← readOffset cs
      if h ≤ 23 ∧ mi ≤ 59 ∧ sec ≤ 59 ∧ cs.isEmpty then
        some (daysFromCivil y mo d * 86400 + ((h * 3600 + mi * 60 + sec : Nat) : Int) - off.getD 0)
      else none

/-- Embeds the source's `ts_str.replace('Z', '+00:00')`. -/
def replace_Z (s : String) : String :=
  String.mk (s.data.foldr
    (fun c acc => if c = 'Z' then '+' :: '0' :: '0' :: ':' :: '0' :: '0' :: acc else c :: acc) [])

/-- Embeds `round_min` (lines 32-33): epoch seconds to the nearest whole
minute, with Python's round-half-to-even tie rule. -/
def round_min (ts : Int) : Int :=
  let q := ts.fdiv 60
  let r := ts - 60 * q
  if r < 30 then q else if 30 < r then q + 1 else if q % 2 = 0 then q else q + 1

/-- Embeds Python's `str.split(',')` (which yields `[""]` on `""`). -/
def splitCommaAux : List Char → List Char → List String
  | [], acc => [String.mk acc.reverse]
  | c :: cs, acc =>
    if c = ',' then String.mk acc.reverse :: splitCommaAux cs [] else splitCommaAux cs (c :: acc)

/-- Splits a string on commas, Python `split(',')` style. -/
def splitComma (s : String) : List String := splitCommaAux s.data []

/-- One raw feed reading: `created_at` plus the `field{n}` slots of the
JSON object, each absent (`none`) or a string. -/
structure RawReading where
  created_at : Option String
  fields : Nat → Option String

/-- The three dict entries `t{s}`, `rh{s}`, `ok{s}` of a merged record
for one sensor.  The outer `Option` is dict-key presence. -/
structure Cell where
  t : Option (Option ℚ)
  rh : Option (Option ℚ)
  ok : Option Nat
deriving DecidableEq

/-- A sensor key that was never written. -/
def emptyCell : Cell := ⟨none, none, none⟩

/-- One merged per-minute record: the creating reading's timestamp plus
the per-sensor cells, as an insertion-ordered association list. -/
structure Entry where
  timestamp : Int
  cells : List (Nat × Cell)
deriving DecidableEq

/-- Association-list lookup (Python dict `m[key]` / `key in m`). -/
def alist_get {α β : Type} [DecidableEq α] (m : List (α × β)) (key : α) : Option β :=
  match m with
  | [] => none
  | (k, v) :: rest => if key = k then some v else alist_get rest key

/-- Association-list store (Python dict `m[key] = v`): replaces in
place, or appends at the end when the key is new. -/
def alist_set {α β : Type} [DecidableEq α] (m : List (α × β)) (key : α) (v : β) : List (α × β) :=
  match m with
  | [] => [(key, v)]
  | (k, v0) :: rest => if key = k then (k, v) :: rest else (k, v0) :: alist_set rest key v

/-- The cell of sensor `s` in an entry (`emptyCell` when never touched). -/
def getCell (e : Entry) (s : Nat) : Cell := (alist_get e.cells s).getD emptyCell

/-- Stores the cell of sensor `s`. -/
def setCell (e : Entry) (s : Nat) (c : Cell) : Entry := { e with cells := alist_set e.cells s c }

/-- Updates the cell of sensor `s` through `f`. -/
def updCell (e : Entry) (s : Nat) (f : Cell → Cell) : Entry := setCell e s (f (getCell e s))

/-- Embeds the CSV-format detection of line 52:
`field2 and isinstance(field2, str) and ',' in field2`. -/
def csvDetect (f : RawReading) : Bool :=
  match f.fields 2 with
  | some s => (s != "") && s.data.contains ','
  | none => false

/-- The loop body of the packed-CSV branch (lines 56-62) for sensor `s`:
the positional parts are parsed (out-of-range gives no value), `t{s}`
and `rh{s}` are overwritten, and `ok{s}` is set on first touch only. -/
def csvCell (tParts rhParts : List String) (s : Nat) (c : Cell) : Cell :=
  let tv : Option ℚ :=
    match tParts[s - 1]? with
    | some p => num_parse (some p)
    | none => none
  let hv : Option ℚ :=
    match rhParts[s - 1]? with
    | some p => num_parse (some p)
    | none => none
  { t := some tv, rh := some hv,
    ok := if c.ok = none then some (if tv.isSome || hv.isSome then 1 else 0) else c.ok }

/-- The loop body of the legacy branch (lines 65-69) for sensor `s`:
`t{s}` is overwritten and `ok{s}` is set on first touch only, to 1 when
the parsed value is present and non-zero. -/
def legacyCell (f : RawReading) (s : Nat) (c : Cell) : Cell :=
  let val := num_parse (f.fields s)
  { c with
    t := some val,
    ok := if c.ok = none then some (if val.isSome && val != some 0 then 1 else 0) else c.ok }

/-- The loop body of humidity ingestion (lines 82-86) for sensor `s`:
`rh{s}` is overwritten, and `ok{s}` is forced to 1 whenever the parsed
value is present and non-zero. -/
def humCell (f : RawReading) (s : Nat) (c : Cell) : Cell :=
  let val := num_parse (f.fields s)
  { c with
    rh := some val,
    ok := if val.isSome && val != some 0 then some 1 else c.ok }

/-- Applies one temperature reading to the record at its key
(lines 50-69): format detection, then the per-sensor loop. -/
def applyTempReading (SC : Nat) (f : RawReading) (e : Entry) : Entry :=
  if csvDetect f then
    let tParts := splitComma ((f.fields 2).getD "")
    let rhParts := splitComma ((f.fields 3).getD "")
    (List.range' 1 SC).foldl (fun a s => updCell a s (csvCell tParts rhParts s)) e
  else
    (List.range' 1 (min SC 8)).foldl (fun a s => updCell a s (legacyCell f s)) e

/-- Applies one humidity reading to the record at its key (lines 82-86). -/
def applyHumReading (SC : Nat) (f : RawReading) (e : Entry) : Entry :=
  (List.range' 1 (min SC 8)).foldl (fun a s => updCell a s (humCell f s)) e

/-- Embeds `f.get('created_at', '')` followed by
`datetime.fromisoformat(ts_str.replace('Z', '+00:00'))`. -/
def parse_created_at (f : RawReading) : Option Int := parseIso (replace_Z (f.created_at.getD ""))

/-- One step of the temperature-feed loop (lines 38-69): skip on a bad
timestamp, else create the record if the minute key is new and apply
the reading. -/
def ingestTemp (SC : Nat) (entries : List (Int × Entry)) (f : RawReading) : List (Int × Entry) :=
  match parse_created_at f with
  | none => entries
  | some ts =>
    let key := round_min ts
    let e := (alist_get entries key).getD { timestamp := ts, cells := [] }
    alist_set entries key (applyTempReading SC f e)

/-- One step of the humidity-feed loop (lines 71-86). -/
def ingestHum (SC : Nat) (entries : List (Int × Entry)) (f : RawReading) : List (Int × Entry) :=
  match parse_created_at f with
  | none => entries
  | some ts =>
    let key := round_min ts
    let e := (alist_get entries key).getD { timestamp := ts, cells := [] }
    alist_set entries key (applyHumReading SC f e)

/-- The key mapping after both feeds are ingested, temperature feed
first, in input order. -/
def entriesOf (SC : Nat) (temps hums : List RawReading) : List (Int × Entry) :=
  hums.foldl (ingestHum SC) (temps.foldl (ingestTemp SC) [])

/-- The finalization fill of one cell (lines 92-94): missing keys
default to `t=None`, `rh=None`, `ok=0`. -/
def fillCell (c : Cell) : Cell :=
  { t := if c.t = none then some none else c.t,
    rh := if c.rh = none then some none else c.rh,
    ok := if c.ok = none then some 0 else c.ok }

/-- The finalization loop over sensors `1..SENSOR_COUNT` (lines 91-94). -/
def finalizeEntry (SC : Nat) (e : Entry) : Entry :=
  (List.range' 1 SC).foldl (fun a s => updCell a s (fun c => fillCell c)) e

/-- The output list before sorting: the filled records in key-mapping
insertion order (lines 89-95). -/
def preMerged (SC : Nat) (temps hums : List RawReading) : List Entry :=
  (entriesOf SC temps hums).map (fun p => finalizeEntry SC p.2)

/-- Sort order of line 97: by record timestamp. -/
def tsLE (a b : Entry) : Prop := a.timestamp ≤ b.timestamp

instance : DecidableRel tsLE := fun a b => inferInstanceAs (Decidable (a.timestamp ≤ b.timestamp))

instance : IsTotal Entry tsLE := ⟨fun a b => Int.le_total a.timestamp b.timestamp⟩

instance : IsTrans Entry tsLE := ⟨fun _ _ _ h1 h2 => le_trans h1 h2⟩

/-- The full merge (lines 36-97): ingest both feeds, fill, and stably
sort by timestamp (Python's `list.sort` is stable; insertion sort on
`tsLE` computes the same stable sort). -/
def mergeFeeds (SC : Nat) (temps hums : List RawReading) : List Entry :=
  List.insertionSort tsLE (preMerged SC temps hums)

/-- Lookup after a store: the stored key reads back the new value and
every other key is untouched. -/
theorem alist_get_set {α β : Type} [DecidableEq α] (m : List (α × β)) (k k' : α) (v : β) :
    alist_get (alist_set m k v) k' = if k' = k then some v else alist_get m k' := by
  induction m with
  | nil => by_cases h : k' = k <;> simp [alist_set, alist_get, h]
  | cons p rest ih =>
    obtain ⟨a, b⟩ := p
    by_cases hka : k = a
    · subst hka
      by_cases h : k' = k <;> simp [alist_set, alist_get, h]
    · by_cases h1 : k' = a
      · subst h1
        have hkk : ¬ k' = k := fun hh => hka hh.symm
        simp [alist_set, alist_get, hka, hkk]
      · simp [alist_set, alist_get, hka, h1, ih]

/-- Cell lookup after a cell store. -/
theorem getCell_setCell (e : Entry) (k s : Nat) (c : Cell) :
    getCell (setCell e k c) s = if s = k then c else getCell e s := by
  unfold getCell setCell
  rw [alist_get_set]
  by_cases h : s = k <;> simp [h]

/-- Cell lookup after a cell update. -/
theorem getCell_updCell (e : Entry) (k s : Nat) (f : Cell → Cell) :
    getCell (updCell e k f) s = if s = k then f (getCell e k) else getCell e s := by
  unfold updCell
  rw [getCell_setCell]

/-- A per-sensor loop only writes its own sensor: folding updates over
a duplicate-free index list acts pointwise. -/
theorem getCell_foldl (g : Nat → Cell → Cell) (L : List Nat) (hnd : L.Nodup) (e : Entry)
    (s : Nat) :
    getCell (L.foldl (fun a i => updCell a i (g i)) e) s
      = if s ∈ L then g s (getCell e s) else getCell e s := by
  induction L generalizing e with
  | nil => simp
  | cons i L ih =>
    have hiL : i ∉ L := (List.nodup_cons.mp hnd).1
    have hL : L.Nodup := (List.nodup_cons.mp hnd).2
    rw [List.foldl_cons, ih hL]
    by_cases hs : s ∈ L
    · have hsi : s ≠ i := fun h => hiL (h ▸ hs)
      rw [if_pos hs, if_pos (List.mem_cons.mpr (Or.inr hs)), getCell_updCell, if_neg hsi]
    · rw [if_neg hs, getCell_updCell]
      by_cases hsi : s = i
      · subst hsi
        rw [if_pos rfl, if_pos (List.mem_cons.mpr (Or.inl rfl))]
      · rw [if_neg hsi, if_neg (fun h => (List.mem_cons.mp h).elim hsi hs)]

/-- Pointwise description of one CSV-format temperature reading. -/
theorem getCell_applyTemp_csv (SC : Nat) (f : RawReading) (e : Entry) (s : Nat)
    (h : csvDetect f = true) :
    getCell (applyTempReading SC f e) s
      = if 1 ≤ s ∧ s < 1 + SC
          then csvCell (splitComma ((f.fields 2).getD ""))
            (splitComma ((f.fields 3).getD "")) s (getCell e s)
          else getCell e s := by
  simp only [applyTempReading, h, if_true]
  rw [getCell_foldl _ _ (List.nodup_range' _ _)]
  simp only [List.mem_range'_1]

/-- Pointwise description of one legacy-format temperature reading. -/
theorem getCell_applyTemp_legacy (SC : Nat) (f : RawReading) (e : Entry) (s : Nat)
    (h : csvDetect f = false) :
    getCell (applyTempReading SC f e) s
      = if 1 ≤ s ∧ s < 1 + min SC 8 then legacyCell f s (getCell e s) else getCell e s := by
  simp only [applyTempReading, h, Bool.false_eq_true, if_false]
  rw [getCell_foldl _ _ (List.nodup_range' _ _)]
  simp only [List.mem_range'_1]

/-- Pointwise description of one humidity reading. -/
theorem getCell_applyHum (SC : Nat) (f : RawReading) (e : Entry) (s : Nat) :
    getCell (applyHumReading SC f e) s
      = if 1 ≤ s ∧ s < 1 + min SC 8 then humCell f s (getCell e s) else getCell e s := by
  unfold applyHumReading
  rw [getCell_foldl _ _ (List.nodup_range' _ _)]
  simp only [List.mem_range'_1]

/-- Pointwise description of the finalization fill. -/
theorem getCell_finalizeEntry (SC : Nat) (e : Entry) (s : Nat) :
    getCell (finalizeEntry SC e) s
      = if 1 ≤ s ∧ s < 1 + SC then fillCell (getCell e s) else getCell e s := by
  unfold finalizeEntry
  rw [getCell_foldl _ _ (List.nodup_range' _ _)]
  simp only [List.mem_range'_1]

/-- The fill makes all three per-sensor dict keys present. -/
theorem fillCell_isSome (c : Cell) :
    (fillCell c).t.isSome = true ∧ (fillCell c).rh.isSome = true
      ∧ (fillCell c).ok.isSome = true := by
  refine ⟨?_, ?_, ?_⟩
  · cases h : c.t <;> simp [fillCell, h]
  · cases h : c.rh <;> simp [fillCell, h]
  · cases h : c.ok <;> simp [fillCell, h]

/-- Every output record is the fill of some ingested entry. -/
theorem mem_mergeFeeds_shape (SC : Nat) (temps hums : List RawReading) (r : Entry)
    (h : r ∈ mergeFeeds SC temps hums) :
    ∃ p ∈ entriesOf SC temps hums, r = finalizeEntry SC p.2 := by
  have h2 : r ∈ preMerged SC temps hums := (List.mem_insertionSort tsLE).mp h
  obtain ⟨p, hp, hr⟩ := List.mem_map.mp h2
  exact ⟨p, hp, hr.symm⟩

/-- Filtering on a timestamp value commutes with one ordered insert:
the inserted record lands in front of the records with its timestamp. -/
theorem filter_orderedInsert (x : Entry) (l : List Entry) (k : Int) :
    (List.orderedInsert tsLE x l).filter (fun e => e.timestamp == k)
      = if x.timestamp = k
          then x :: l.filter (fun e => e.timestamp == k)
          else l.filter (fun e => e.timestamp == k) := by
  induction l with
  | nil => by_cases hx : x.timestamp = k <;> simp [List.orderedInsert, hx]
  | cons y ys ih =>
    by_cases hle : tsLE x y
    · rw [List.orderedInsert, if_pos hle]
      by_cases hx : x.timestamp = k <;> simp [List.filter_cons, hx]
    · rw [List.orderedInsert, if_neg hle]
      have hlt : y.timestamp < x.timestamp := lt_of_not_le hle
      by_cases hx : x.timestamp = k
      · have hy : (y.timestamp == k) = false :=
          beq_eq_false_iff_ne.mpr (fun hh => absurd (hx ▸ hh ▸ hlt) (lt_irrefl _))
        simp [List.filter_cons, hy, ih, hx]
      · simp only [List.filter_cons, ih, if_neg hx]

/-- Filtering on a timestamp value is invariant under the sort: the
sort is stable on timestamp ties. -/
theorem filter_insertionSort (l : List Entry) (k : Int) :
    (List.insertionSort tsLE l).filter (fun e => e.timestamp == k)
      = l.filter (fun e => e.timestamp == k) := by
  induction l with
  | nil => rfl
  | cons x xs ih =>
    rw [List.insertionSort, filter_orderedInsert, ih, List.filter_cons]
    by_cases hx : x.timestamp = k <;> simp [hx]

/-- A single temperature reading with a good timestamp produces exactly
one record, the fill of that reading applied to a fresh entry. -/
theorem mergeFeeds_single_temp (SC : Nat) (f : RawReading) (ts : Int)
    (hts : parse_created_at f = some ts) :
    mergeFeeds SC [f] []
      = [finalizeEntry SC (applyTempReading SC f { timestamp := ts, cells := [] })] := by
  simp only [mergeFeeds, preMerged, entriesOf, List.foldl_cons, List.foldl_nil, ingestTemp, hts]
  simp [alist_get, alist_set, List.insertionSort, List.orderedInsert_nil]

/-- The temperature value the CSV loop computes for sensor `s` (its
local `tv`): positional part `s-1` of `field2` split on commas, parsed. -/
def csvTv (f : RawReading) (s : Nat) : Option ℚ :=
  match (splitComma ((f.fields 2).getD ""))[s - 1]? with
  | some p => num_parse (some p)
  | none => none

/-- The humidity value the CSV loop computes for sensor `s` (its local
`hv`): positional part `s-1` of `field3` split on commas, parsed. -/
def csvHv (f : RawReading) (s : Nat) : Option ℚ :=
  match (splitComma ((f.fields 3).getD ""))[s - 1]? with
  | some p => num_parse (some p)
  | none => none

/-- The packed-CSV example reading of the spec's end-to-end test. -/
def rCSV : RawReading :=
  { created_at := some "2026-02-25T10:00:00Z",
    fields := fun s => if s = 2 then some "21.5,22.0" else if s = 3 then some "40,41" else none }

/-- The same packed-CSV payload twenty seconds later (same minute key). -/
def rCSV20 : RawReading :=
  { created_at := some "2026-02-25T10:00:20Z",
    fields := fun s => if s = 2 then some "21.5,22.0" else if s = 3 then some "40,41" else none }

/-- A packed-CSV reading none of whose positional parts parses
(`field2` is a bare comma and `field3` is absent). -/
def rNoVal : RawReading :=
  { created_at := some "2026-02-25T10:00:00Z",
    fields := fun s => if s = 2 then some "," else none }

/-- A legacy-format reading whose `field1` is the string `"0"`. -/
def rLegacyZero : RawReading :=
  { created_at := some "2026-02-25T10:00:00Z",
    fields := fun s => if s = 1 then some "0" else none }

/-- A packed-CSV reading with no parseable temperature for sensor 1 but
a humidity of 40 (so `ok1` is set from `rh1` alone). -/
def rTempHV : RawReading :=
  { created_at := some "2026-02-25T10:00:00Z",
    fields := fun s => if s = 2 then some "," else if s = 3 then some "40,41" else none }

/-- A humidity reading in the same minute with every field absent. -/
def rHumNone : RawReading :=
  { created_at := some "2026-02-25T10:00:20Z",
    fields := fun _ => none }

/-- A humidity reading with `field1 = "55"`. -/
def rHum55 : RawReading :=
  { created_at := some "2026-02-25T10:00:20Z",
    fields := fun s => if s = 1 then some "55" else none }

/-- A reading whose `created_at` does not parse as a timestamp. -/
def rBadTs : RawReading :=
  { created_at := some "not-a-date",
    fields := fun s => if s = 1 then some "55" else none }

/-- A fresh record with no sensor keys. -/
def entry0 : Entry := { timestamp := 0, cells := [] }

/-- A record whose sensor 1 already has `ok1 = 0` (as left by a
temperature reading with no parseable value). -/
def entryOk0 : Entry := { timestamp := 0, cells := [(1, { t := none, rh := none, ok := some 0 })] }

/-- The record `mergeFeeds 1 [rLegacyZero] []` produces. -/
def recLegacy : Entry :=
  { timestamp := 1772013600,
    cells := [(1, { t := some (some 0), rh := some none, ok := some 0 })] }

/-- C1 (amended): temperature ingestion overwrites `t_s` (and `rh_s` in
CSV format) but sets `ok_s` only on first touch — and on first touch it
always sets it immediately, to 1 when the format's validity criterion
holds (CSV: at least one of the two parsed values present; legacy:
value present and non-zero) and to 0 otherwise, rather than leaving it
unset; once set, `ok_s` is never revised by a later temperature
reading at the same key. -/
theorem C1_temp_first_touch (SC : Nat) (f : RawReading) (e : Entry) (s : Nat) :
    (∀ v : Nat, (getCell e s).ok = some v →
        (getCell (applyTempReading SC f e) s).ok = some v)
    ∧ (csvDetect f = true → 1 ≤ s → s ≤ SC →
        (getCell (applyTempReading SC f e) s).t = some (csvTv f s)
        ∧ (getCell (applyTempReading SC f e) s).rh = some (csvHv f s)
        ∧ ((getCell e s).ok = none →
            (getCell (applyTempReading SC f e) s).ok
              = some (if (csvTv f s).isSome || (csvHv f s).isSome then 1 else 0)))
    ∧ (csvDetect f = false → 1 ≤ s → s ≤ min SC 8 →
        (getCell (applyTempReading SC f e) s).t = some (num_parse (f.fields s))
        ∧ ((getCell e s).ok = none →
            (getCell (applyTempReading SC f e) s).ok
              = some (if (num_parse (f.fields s)).isSome
                        && (num_parse (f.fields s)) != some 0 then 1 else 0))) := by
  refine ⟨?_, ?_, ?_⟩
  · intro v hv
    cases hc : csvDetect f
    · rw [getCell_applyTemp_legacy _ _ _ _ hc]
      by_cases hr : 1 ≤ s ∧ s < 1 + min SC 8
      · rw [if_pos hr]
        simp [legacyCell, hv]
      · rw [if_neg hr]
        exact hv
    · rw [getCell_applyTemp_csv _ _ _ _ hc]
      by_cases hr : 1 ≤ s ∧ s < 1 + SC
      · rw [if_pos hr]
        simp [csvCell, hv]
      · rw [if_neg hr]
        exact hv
  · intro hcsv h1 h2
    rw [getCell_applyTemp_csv _ _ _ _ hcsv, if_pos ⟨h1, by omega⟩]
    refine ⟨rfl, rfl, ?_⟩
    intro hok
    simp [csvCell, csvTv, csvHv, hok]
  · intro hcsv h1 h2
    rw [getCell_applyTemp_legacy _ _ _ _ hcsv, if_pos ⟨h1, by omega⟩]
    refine ⟨rfl, ?_⟩
    intro hok
    simp [legacyCell, hok]

/-- Witness for the amended C1 at the spec's example reading on a fresh
record. -/
theorem C1_temp_first_touch_wit :
    (getCell (applyTempReading 5 rCSV entry0) 1).t = some (csvTv rCSV 1)
    ∧ (getCell (applyTempReading 5 rCSV entry0) 1).rh = some (csvHv rCSV 1)
    ∧ (getCell (applyTempReading 5 rCSV entry0) 1).ok
        = some (if (csvTv rCSV 1).isSome || (csvHv rCSV 1).isSome then 1 else 0) :=
  ⟨((C1_temp_first_touch 5 rCSV entry0 1).2.1 (by decide) (by decide) (by decide)).1,
   ((C1_temp_first_touch 5 rCSV entry0 1).2.1 (by decide) (by decide) (by decide)).2.1,
   ((C1_temp_first_touch 5 rCSV entry0 1).2.1 (by decide) (by decide) (by decide)).2.2 (by decide)⟩

/-- C1 counterexample: a first temperature reading at a key whose
sensor-1 values do not parse, followed in the same minute by one whose
values do parse.  The claim predicts `ok1` is left unset by the first
reading and then set to 1 by the second; the code sets `ok1 = 0` on the
first touch and never revises it, so the merged output has `ok1 = 0`
even though the second reading's `t1` parsed (and overwrote `t1`). -/
theorem C1_temp_first_touch_cex :
    (mergeFeeds 5 [rNoVal, rCSV20] []).map
        (fun r => ((getCell r 1).t, (getCell r 1).rh, (getCell r 1).ok))
      = [(some (some (mkRat 43 2)), some (some 40), some 0)]
    ∧ csvTv rNoVal 1 = none ∧ csvHv rNoVal 1 = none
    ∧ csvTv rCSV20 1 = some (mkRat 43 2) := by decide

/-- C2: humidity ingestion overwrites `rh_s` with the parsed value, and
when that value is present and non-zero it forces `ok_s = 1`
unconditionally; a zero or absent value never touches `ok_s`, and the
humidity path never lowers `ok_s` from 1. -/
theorem C2_hum_override (SC : Nat) (f : RawReading) (e : Entry) (s : Nat)
    (h1 : 1 ≤ s) (h2 : s ≤ min SC 8) :
    (getCell (applyHumReading SC f e) s).rh = some (num_parse (f.fields s))
    ∧ ((num_parse (f.fields s)).isSome = true → num_parse (f.fields s) ≠ some 0 →
        (getCell (applyHumReading SC f e) s).ok = some 1)
    ∧ (num_parse (f.fields s) = none ∨ num_parse (f.fields s) = some 0 →
        (getCell (applyHumReading SC f e) s).ok = (getCell e s).ok)
    ∧ ((getCell e s).ok = some 1 → (getCell (applyHumReading SC f e) s).ok = some 1) := by
  rw [getCell_applyHum, if_pos ⟨h1, by omega⟩]
  refine ⟨rfl, ?_, ?_, ?_⟩
  · intro hs h0
    have hb : (num_parse (f.fields s)) != some 0 := bne_iff_ne.mpr h0
    simp [humCell, hs, hb]
  · intro h
    rcases h with h | h <;> simp [humCell, h]
  · intro h
    by_cases hc : (num_parse (f.fields s)).isSome && (num_parse (f.fields s)) != some 0
    · simp [humCell, hc]
    · simp [humCell, hc, h]

/-- Witness for C2: a humidity reading of `"55"` forces `ok1 = 1` on a
record whose `ok1` was already 0 from the temperature path. -/
theorem C2_hum_override_wit :
    (getCell (applyHumReading 5 rHum55 entryOk0) 1).rh = some (num_parse (rHum55.fields 1))
    ∧ (getCell (applyHumReading 5 rHum55 entryOk0) 1).ok = some 1 :=
  ⟨(C2_hum_override 5 rHum55 entryOk0 1 (by decide) (by decide)).1,
   (C2_hum_override 5 rHum55 entryOk0 1 (by decide) (by decide)).2.1 (by decide) (by decide)⟩

/-- C3: a legacy-format temperature reading whose field parses to
exactly 0, merged on its own (fresh key, `ok_s` never previously set),
yields a record with `t_s = 0.0` and `ok_s = 0`. -/
theorem C3_legacy_zero (SC : Nat) (f : RawReading) (s : Nat) (ts : Int)
    (hts : parse_created_at f = some ts) (hcsv : csvDetect f = false)
    (h1 : 1 ≤ s) (h2 : s ≤ min SC 8)
    (h0 : num_parse (f.fields s) = some 0) :
    (mergeFeeds SC [f] []).map (fun r => ((getCell r s).t, (getCell r s).ok))
      = [(some (some 0), some 0)] := by
  rw [mergeFeeds_single_temp SC f ts hts, List.map_cons, List.map_nil]
  rw [getCell_finalizeEntry, if_pos ⟨h1, by omega⟩]
  rw [getCell_applyTemp_legacy _ _ _ _ hcsv, if_pos ⟨h1, by omega⟩]
  have hfresh : getCell { timestamp := ts, cells := [] } s = emptyCell := rfl
  rw [hfresh]
  simp [legacyCell, h0, fillCell, emptyCell]

/-- Witness for C3: the spec's own example, `field1 = "0"` with
`SENSOR_COUNT = 1`. -/
theorem C3_legacy_zero_wit :
    (mergeFeeds 1 [rLegacyZero] []).map (fun r => ((getCell r 1).t, (getCell r 1).ok))
      = [(some (some 0), some 0)] :=
  C3_legacy_zero 1 rLegacyZero 1 1772013600 (by decide) (by decide) (by decide) (by decide)
    (by decide)

/-- C4: humidity ingestion overwrites `rh_s` with the parsed value even
when that value is "no value" (while leaving `t_s` alone), and in the
merged output this can leave `ok_s = 1` on a sensor whose `t_s` and
`rh_s` are both "no value": a packed-CSV temperature reading made
`ok1 = 1` from its humidity part alone, then a same-minute humidity
reading with the field absent cleared `rh1`. -/
theorem C4_hum_overwrites_rh (SC : Nat) (f : RawReading) (e : Entry) (s : Nat)
    (h1 : 1 ≤ s) (h2 : s ≤ min SC 8) :
    (getCell (applyHumReading SC f e) s).rh = some (num_parse (f.fields s))
    ∧ (getCell (applyHumReading SC f e) s).t = (getCell e s).t
    ∧ (mergeFeeds 5 [rTempHV] [rHumNone]).map
        (fun r => ((getCell r 1).t, (getCell r 1).rh, (getCell r 1).ok))
      = [(some none, some none, some 1)] := by
  rw [getCell_applyHum, if_pos ⟨h1, by omega⟩]
  exact ⟨rfl, rfl, by decide⟩

/-- Witness for C4: a humidity reading with an absent field overwrites
`rh1` with "no value" on a fresh record. -/
theorem C4_hum_overwrites_rh_wit :
    (getCell (applyHumReading 5 rHumNone entry0) 1).rh = some (num_parse (rHumNone.fields 1))
    ∧ (getCell (applyHumReading 5 rHumNone entry0) 1).t = (getCell entry0 1).t
    ∧ (mergeFeeds 5 [rTempHV] [rHumNone]).map
        (fun r => ((getCell r 1).t, (getCell r 1).rh, (getCell r 1).ok))
      = [(some none, some none, some 1)] :=
  C4_hum_overwrites_rh 5 rHumNone entry0 1 (by decide) (by decide)

/-- C5: the spec's end-to-end packed-CSV example with
`SENSOR_COUNT = 5`: one record, at the parsed timestamp, with
`t1 = 21.5, rh1 = 40, ok1 = 1`, `t2 = 22, rh2 = 41, ok2 = 1`, and
sensors 3-5 all "no value" with `ok = 0`. -/
theorem C5_csv_end_to_end :
    parse_created_at rCSV = some 1772013600
    ∧ (mergeFeeds 5 [rCSV] []).map (fun r => r.timestamp) = [1772013600]
    ∧ (mergeFeeds 5 [rCSV] []).map
        (fun r => (getCell r 1, getCell r 2, getCell r 3, getCell r 4, getCell r 5))
      = [({ t := some (some (mkRat 43 2)), rh := some (some 40), ok := some 1 },
          { t := some (some 22), rh := some (some 41), ok := some 1 },
          { t := some none, rh := some none, ok := some 0 },
          { t := some none, rh := some none, ok := some 0 },
          { t := some none, rh := some none, ok := some 0 })]
    ∧ (mkRat 43 2 : ℚ) = 21.5 ∧ (40 : ℚ) = 40.0 ∧ (22 : ℚ) = 22.0 ∧ (41 : ℚ) = 41.0 := by
  refine ⟨by decide, by decide, by decide, ?_, ?_, ?_, ?_⟩ <;> norm_num [mkRat, Rat.normalize]

/-- C6: every record in the merged output has all three of `t_s`,
`rh_s`, `ok_s` present for every sensor `1..SENSOR_COUNT`, and a sensor
never populated during ingestion is defaulted to
`t = None, rh = None, ok = 0` by the finalization fill. -/
theorem C6_completeness (SC : Nat) (temps hums : List RawReading) (r : Entry)
    (hmem : r ∈ mergeFeeds SC temps hums) (s : Nat) (h1 : 1 ≤ s) (h2 : s ≤ SC)
    (e : Entry) (he : getCell e s = emptyCell) :
    ((getCell r s).t.isSome = true ∧ (getCell r s).rh.isSome = true
      ∧ (getCell r s).ok.isSome = true)
    ∧ getCell (finalizeEntry SC e) s = { t := some none, rh := some none, ok := some 0 } := by
  constructor
  · obtain ⟨p, hp, hr⟩ := mem_mergeFeeds_shape SC temps hums r hmem
    subst hr
    rw [getCell_finalizeEntry, if_pos ⟨h1, by omega⟩]
    exact fillCell_isSome _
  · rw [getCell_finalizeEntry, if_pos ⟨h1, by omega⟩, he]
    rfl

/-- Witness for C6 on the single-legacy-reading merge with
`SENSOR_COUNT = 1`. -/
theorem C6_completeness_wit :
    ((getCell recLegacy 1).t.isSome = true ∧ (getCell recLegacy 1).rh.isSome = true
      ∧ (getCell recLegacy 1).ok.isSome = true)
    ∧ getCell (finalizeEntry 1 entry0) 1
        = { t := some none, rh := some none, ok := some 0 } :=
  C6_completeness 1 [rLegacyZero] [] recLegacy (by decide) 1 (by decide) (by decide) entry0
    (by decide)

/-- C7: the merged output is sorted non-decreasing by timestamp, and
the sort is stable: for every timestamp value, the subsequence of
output records carrying it equals the corresponding subsequence of the
pre-sort list, whose order is insertion order into the key mapping
(temperature feed first, then humidity feed, each in input order). -/
theorem C7_sorted_stable (SC : Nat) (temps hums : List RawReading) :
    List.Sorted tsLE (mergeFeeds SC temps hums)
    ∧ ∀ k : Int, (mergeFeeds SC temps hums).filter (fun e => e.timestamp == k)
        = (preMerged SC temps hums).filter (fun e => e.timestamp == k) :=
  ⟨List.sorted_insertionSort tsLE _, fun k => filter_insertionSort _ k⟩

/-- C8: in a packed-CSV temperature reading, a sensor index beyond the
comma-split parts of `field2` (resp. `field3`) gets `t_s` (resp.
`rh_s`) set to "no value"; the per-sensor loop is total, so ingestion
always completes instead of raising an out-of-bounds error. -/
theorem C8_csv_split_robust (SC : Nat) (f : RawReading) (e : Entry) (s : Nat)
    (hcsv : csvDetect f = true) (h1 : 1 ≤ s) (h2 : s ≤ SC)
    (hshort : (splitComma ((f.fields 2).getD "")).length < s) :
    (getCell (applyTempReading SC f e) s).t = some none
    ∧ ((splitComma ((f.fields 3).getD "")).length < s →
        (getCell (applyTempReading SC f e) s).rh = some none) := by
  rw [getCell_applyTemp_csv _ _ _ _ hcsv, if_pos ⟨h1, by omega⟩]
  constructor
  · have hn : (splitComma ((f.fields 2).getD ""))[s - 1]? = none :=
      List.getElem?_eq_none (by omega)
    simp [csvCell, hn]
  · intro h3
    have hn : (splitComma ((f.fields 3).getD ""))[s - 1]? = none :=
      List.getElem?_eq_none (by omega)
    simp [csvCell, hn]

/-- Witness for C8: the spec example's `field2` has two parts, so with
`SENSOR_COUNT = 5` sensor 3 gets `t3 = rh3 = ` "no value". -/
theorem C8_csv_split_robust_wit :
    (getCell (applyTempReading 5 rCSV entry0) 3).t = some none
    ∧ (getCell (applyTempReading 5 rCSV entry0) 3).rh = some none :=
  ⟨(C8_csv_split_robust 5 rCSV entry0 3 (by decide) (by decide) (by decide) (by decide)).1,
   (C8_csv_split_robust 5 rCSV entry0 3 (by decide) (by decide) (by decide) (by decide)).2
     (by decide)⟩

/-- C9: the field-value parser is a total function; absence and the
literal tokens `""`, `"null"`, `"None"` give "no value", every other
string is handed to the float parser, and float-parse failure gives
"no value" rather than an error. -/
theorem C9_num_parse_contract (v : Option String) (s : String) :
    num_parse none = none
    ∧ num_parse (some "") = none
    ∧ num_parse (some "null") = none
    ∧ num_parse (some "None") = none
    ∧ (s ≠ "" → s ≠ "null" → s ≠ "None" → num_parse (some s) = pyFloat? s)
    ∧ (pyFloat? s = none → num_parse (some s) = none)
    ∧ (num_parse v = none ∨ ∃ q : ℚ, num_parse v = some q) := by
  refine ⟨rfl, by decide, by decide, by decide, ?_, ?_, ?_⟩
  · intro h1 h2 h3
    simp [num_parse, h1, h2, h3]
  · intro h
    by_cases h1 : s = "" ∨ s = "null" ∨ s = "None" <;> simp [num_parse, h1, h]
  · cases hv : num_parse v with
    | none => exact Or.inl rfl
    | some q => exact Or.inr ⟨q, rfl⟩

/-- Witness for C9 at the unparseable string `"abc"`. -/
theorem C9_num_parse_contract_wit :
    num_parse (some "abc") = pyFloat? "abc" ∧ num_parse (some "abc") = none :=
  ⟨(C9_num_parse_contract (some "abc") "abc").2.2.2.2.1 (by decide) (by decide) (by decide),
   (C9_num_parse_contract (some "abc") "abc").2.2.2.2.2.1 (by decide)⟩

/-- C10: a reading whose `created_at` fails to parse is a no-op for the
key mapping in either feed, so it can be deleted from its feed without
changing the merged output, and merging two empty feeds yields the
empty sequence. -/
theorem C10_bad_timestamp_skip (SC : Nat) (m : List (Int × Entry)) (f : RawReading)
    (hbad : parse_created_at f = none) :
    ingestTemp SC m f = m
    ∧ ingestHum SC m f = m
    ∧ (∀ t1 t2 hums, mergeFeeds SC (t1 ++ f :: t2) hums = mergeFeeds SC (t1 ++ t2) hums)
    ∧ (∀ temps hh1 hh2, mergeFeeds SC temps (hh1 ++ f :: hh2) = mergeFeeds SC temps (hh1 ++ hh2))
    ∧ mergeFeeds SC [] [] = [] := by
  have hT : ∀ mm, ingestTemp SC mm f = mm := fun mm => by simp [ingestTemp, hbad]
  have hH : ∀ mm, ingestHum SC mm f = mm := fun mm => by simp [ingestHum, hbad]
  refine ⟨hT m, hH m, ?_, ?_, rfl⟩
  · intro t1 t2 hums
    simp [mergeFeeds, preMerged, entriesOf, List.foldl_append, List.foldl_cons, hT]
  · intro temps hh1 hh2
    simp [mergeFeeds, preMerged, entriesOf, List.foldl_append, List.foldl_cons, hH]

/-- Witness for C10 at a concrete malformed timestamp. -/
theorem C10_bad_timestamp_skip_wit :
    ingestTemp 5 [] rBadTs = []
    ∧ ingestHum 5 [] rBadTs = []
    ∧ mergeFeeds 5 ([rCSV] ++ rBadTs :: []) [] = mergeFeeds 5 ([rCSV] ++ []) []
    ∧ mergeFeeds 5 [] [] = [] :=
  ⟨(C10_bad_timestamp_skip 5 [] rBadTs (by decide)).1,
   (C10_bad_timestamp_skip 5 [] rBadTs (by decide)).2.1,
   (C10_bad_timestamp_skip 5 [] rBadTs (by decide)).2.2.1 [rCSV] [] [],
   (C10_bad_timestamp_skip 5 [] rBadTs (by decide)).2.2.2.2⟩

end DebugParse
